import Mathlib

/-!
Verification of the simple-features geometry library (TypeScript source)
against its natural-language specification.

The embedding models JavaScript numbers as exact rationals; the
transcendental primitives of the `Math` object (sin, cos, tan, atan,
atan2, exp, log, sqrt, PI) are passed explicitly as a `MathPrims`
structure, since every verified property is a control-flow or exact-value
property that holds for any values those primitives return.  Thrown
`SFException` / `UnsupportedOperationException` errors are modelled with
`Except Err`.
-/

namespace SF

/-- Error kinds: `SFException` and `UnsupportedOperationException`
(src/unnamed error modules re-exported by internal.ts). -/
inductive Err where
  | sf (msg : String)
  | unsupported (msg : String)
deriving DecidableEq, Repr

deriving instance DecidableEq for Except

/-- The `GeometryType` enumeration (src/unnamed/part_007), wire values 0-17
in declaration order. -/
inductive GeometryType where
  | Geometry
  | Point
  | LineString
  | Polygon
  | MultiPoint
  | MultiLineString
  | MultiPolygon
  | GeometryCollection
  | CircularString
  | CompoundCurve
  | CurvePolygon
  | MultiCurve
  | MultiSurface
  | Curve
  | Surface
  | PolyhedralSurface
  | Tin
  | Triangle
deriving DecidableEq, Repr, Fintype

/-- `GeometryUtils.parentType` (FiniteFilterType.ts lines 3232-3313).
The switch covers all 18 tags, so the default throw is unreachable and the
function is total; `Geometry` alone maps to no parent. -/
def parentType : GeometryType → Option GeometryType
  | .Geometry => none
  | .Point => some .Geometry
  | .LineString => some .Curve
  | .Polygon => some .CurvePolygon
  | .MultiPoint => some .GeometryCollection
  | .MultiLineString => some .MultiCurve
  | .MultiPolygon => some .MultiSurface
  | .GeometryCollection => some .Geometry
  | .CircularString => some .LineString
  | .CompoundCurve => some .Curve
  | .CurvePolygon => some .Surface
  | .MultiCurve => some .GeometryCollection
  | .MultiSurface => some .GeometryCollection
  | .Curve => some .Geometry
  | .Surface => some .Geometry
  | .PolyhedralSurface => some .Surface
  | .Tin => some .PolyhedralSurface
  | .Triangle => some .Polygon

/-- `GeometryUtils.childTypes` (FiniteFilterType.ts lines 3352-3423).
All 18 tags are covered; unlisted tags push no children. -/
def childTypes : GeometryType → List GeometryType
  | .Geometry => [.Point, .GeometryCollection, .Curve, .Surface]
  | .Point => []
  | .LineString => [.CircularString]
  | .Polygon => [.Triangle]
  | .MultiPoint => []
  | .MultiLineString => []
  | .MultiPolygon => []
  | .GeometryCollection => [.MultiPoint, .MultiCurve, .MultiSurface]
  | .CircularString => []
  | .CompoundCurve => []
  | .CurvePolygon => [.Polygon]
  | .MultiCurve => [.MultiLineString]
  | .MultiSurface => [.MultiPolygon]
  | .Curve => [.LineString, .CompoundCurve]
  | .Surface => [.CurvePolygon, .PolyhedralSurface]
  | .PolyhedralSurface => [.Tin]
  | .Tin => []
  | .Triangle => []

/-! ### Geometry constants

Modelled from the spec: the `GeometryConstants` module is not under src/
(only re-exported by internal.ts); §4.2 of the spec fixes these values. -/

/-- Modelled from the spec: `BEARING_NORTH = 0` degrees (§4.2). -/
def BEARING_NORTH : ℚ := 0

/-- Modelled from the spec: `BEARING_EAST = 90` degrees (§4.2). -/
def BEARING_EAST : ℚ := 90

/-- Modelled from the spec: `BEARING_SOUTH = 180` degrees (§4.2). -/
def BEARING_SOUTH : ℚ := 180

/-- Modelled from the spec: `BEARING_WEST = 270` degrees (§4.2). -/
def BEARING_WEST : ℚ := 270

/-- Modelled from the spec: `WGS84_HALF_WORLD_LON_WIDTH = 180.0` (§4.2). -/
def WGS84_HALF_WORLD_LON_WIDTH : ℚ := 180

/-- Modelled from the spec: `WGS84_HALF_WORLD_LAT_HEIGHT = 90.0` (§4.2). -/
def WGS84_HALF_WORLD_LAT_HEIGHT : ℚ := 90

/-- Modelled from the spec: `WEB_MERCATOR_HALF_WORLD_WIDTH =
20037508.342789244` (§4.2). -/
def WEB_MERCATOR_HALF_WORLD_WIDTH : ℚ := 20037508342789244 / 1000000000

/-- Modelled from the spec: `DEGREES_TO_METERS_MIN_LAT`; the spec (§4.2, §9)
leaves the literal open, noting the standard Web Mercator clamp
-85.05112877980659 as most plausible, and that the clamped value is dead in
`degreesToMetersCoord` (never substituted into the formula). -/
def DEGREES_TO_METERS_MIN_LAT : ℚ := -8505112877980659 / 100000000000000

/-- Modelled from the spec: `DEFAULT_EQUAL_EPSILON`; the spec (§4.2) leaves
the literal open and asks for a small positive tolerance of at least 1e-12
precision, which is the value chosen here. -/
def DEFAULT_EQUAL_EPSILON : ℚ := 1 / 1000000000000

/-- `GeometryUtils.DEFAULT_EPSILON = 0.000000000000001` (confirmed literal,
FiniteFilterType.ts line 57). -/
def DEFAULT_EPSILON : ℚ := 1 / 1000000000000000

/-- The JavaScript `%` operator on rationals: remainder with the sign of the
dividend (truncated division: floor of the quotient for a non-negative
quotient, ceiling for a negative one). -/
def jsMod (a n : ℚ) : ℚ :=
  a - n * (if 0 ≤ a / n then (⌊a / n⌋ : ℚ) else (⌈a / n⌉ : ℚ))

/-- `GeometryUtils.isNorthBearing` (FiniteFilterType.ts lines 174-180). -/
def isNorthBearing (bearing : ℚ) : Bool :=
  let modifiedBearing := jsMod bearing 360
  modifiedBearing < BEARING_EAST || modifiedBearing > BEARING_WEST

/-- `GeometryUtils.isEastBearing` (FiniteFilterType.ts lines 189-195). -/
def isEastBearing (bearing : ℚ) : Bool :=
  let modifiedBearing := jsMod bearing 360
  modifiedBearing > BEARING_NORTH && modifiedBearing < BEARING_SOUTH

/-- `GeometryUtils.isSouthBearing` (FiniteFilterType.ts lines 204-210). -/
def isSouthBearing (bearing : ℚ) : Bool :=
  let modifiedBearing := jsMod bearing 360
  modifiedBearing > BEARING_EAST && modifiedBearing < BEARING_WEST

/-- `GeometryUtils.isWestBearing` (FiniteFilterType.ts lines 219-221). -/
def isWestBearing (bearing : ℚ) : Bool :=
  jsMod bearing 360 > BEARING_SOUTH

/-! ### Point (src/lib/Point.ts) -/

/-- The `Point` fields: required `x`/`y`, optional `z`/`m`, plus the
`hasZ`/`hasM` flags of the `Geometry` base. -/
structure Point where
  x : ℚ
  y : ℚ
  z : Option ℚ
  m : Option ℚ
  hasZ : Bool
  hasM : Bool
deriving DecidableEq, Repr

instance : Inhabited Point := ⟨⟨0, 0, none, none, false, false⟩⟩

/-- `Point.create` (Point.ts lines 41-46): constructor sets `x=0`, `y=0`. -/
def Point.create (hasZ hasM : Bool) : Point :=
  ⟨0, 0, none, none, hasZ, hasM⟩

/-- The `x` setter (Point.ts lines 89-91). -/
def Point.setX (p : Point) (x : ℚ) : Point := { p with x := x }

/-- The `y` setter (Point.ts lines 105-107). -/
def Point.setY (p : Point) (y : ℚ) : Point := { p with y := y }

/-- The `z` setter (Point.ts lines 121-124): also drives `hasZ`. -/
def Point.setZ (p : Point) (z : Option ℚ) : Point :=
  { p with z := z, hasZ := z.isSome }

/-- The `m` setter (Point.ts lines 139-142): also drives `hasM`. -/
def Point.setM (p : Point) (m : Option ℚ) : Point :=
  { p with m := m, hasM := m.isSome }

/-- `Point.createFromXY` (Point.ts lines 48-53). -/
def Point.createFromXY (x y : ℚ) : Point :=
  ((Point.create false false).setX x).setY y

/-- `Point.copy` (Point.ts lines 147-154): `create(hasZ, hasM)` followed by
the four setters; the `z`/`m` setters overwrite `hasZ`/`hasM` with
`z.isSome`/`m.isSome`. -/
def Point.copy (p : Point) : Point :=
  ((((Point.create p.hasZ p.hasM).setX p.x).setY p.y).setZ p.z).setM p.m

/-! ### LineString / Line (src/lib/LineString.ts, src/unnamed/part_002) -/

/-- A `LineString`-shaped value (also used for `Line` and `CircularString`,
which add no fields and reuse the `LineString` tag). -/
structure LineString where
  hasZ : Bool
  hasM : Bool
  points : List Point
deriving DecidableEq, Repr

/-- `LineString.create` (LineString.ts lines 31-36). -/
def LineString.create (hasZ hasM : Bool) : LineString := ⟨hasZ, hasM, []⟩

/-- `LineString.addPoint` (LineString.ts lines 66-69); `updateZM` is
modelled from the spec (the `Geometry` base class is not under src/):
`container.hasZ := container.hasZ OR child.hasZ`, same for M. -/
def LineString.addPoint (l : LineString) (p : Point) : LineString :=
  ⟨l.hasZ || p.hasZ, l.hasM || p.hasM, l.points ++ [p]⟩

/-- The `points` setter (LineString.ts lines 58-60): direct assignment. -/
def LineString.setPoints (l : LineString) (points : List Point) : LineString :=
  { l with points := points }

/-- `LineString.isEmpty` (LineString.ts lines 154-156). -/
def LineString.isEmpty (l : LineString) : Bool := l.points.isEmpty

/-- `LineString.startPoint` (LineString.ts lines 101-112). -/
def LineString.startPoint (l : LineString) : Except Err Point :=
  match l.points with
  | [] => .error (.sf "No start point")
  | p :: _ => .ok p

/-- `LineString.endPoint` (LineString.ts lines 117-128). -/
def LineString.endPoint (l : LineString) : Except Err Point :=
  match l.points.getLast? with
  | none => .error (.sf "No end point")
  | some p => .ok p

/-- Modelled from the spec: `Curve.isClosed` is not under src/ (the abstract
`Curve` class is only re-exported); a curve is closed when it is non-empty
and its start and end points are coincident (structural `Point.equals`). -/
def LineString.isClosed (l : LineString) : Bool :=
  match l.points.head?, l.points.getLast? with
  | some s, some e => s == e
  | _, _ => false

/-- `Line.createFromTwoPoints` (src/unnamed/part_002 lines 114-121). -/
def lineCreateFromTwoPoints (point1 point2 : Point) : LineString :=
  ((LineString.create (point1.hasZ || point2.hasZ)
    (point1.hasM || point2.hasM)).addPoint point1).addPoint point2

/-! ### GeometryEnvelope (src/lib/GeometryEnvelope.ts) -/

/-- `GeometryEnvelope` fields; `minX`..`maxY` getters throw when unset. -/
structure Envelope where
  minXOpt : Option ℚ := none
  maxXOpt : Option ℚ := none
  minYOpt : Option ℚ := none
  maxYOpt : Option ℚ := none
  hasZ : Bool := false
  minZOpt : Option ℚ := none
  maxZOpt : Option ℚ := none
  hasM : Bool := false
  minMOpt : Option ℚ := none
  maxMOpt : Option ℚ := none
deriving DecidableEq, Repr

/-- The `minX` getter (GeometryEnvelope.ts lines 177-182). -/
def Envelope.minX (e : Envelope) : Except Err ℚ :=
  match e.minXOpt with
  | none => .error (.sf "minX is not defined")
  | some v => .ok v

/-- The `maxX` getter (GeometryEnvelope.ts lines 196-201). -/
def Envelope.maxX (e : Envelope) : Except Err ℚ :=
  match e.maxXOpt with
  | none => .error (.sf "maxX is not defined")
  | some v => .ok v

/-- The `minY` getter (GeometryEnvelope.ts lines 215-220). -/
def Envelope.minY (e : Envelope) : Except Err ℚ :=
  match e.minYOpt with
  | none => .error (.sf "minY is not defined")
  | some v => .ok v

/-- The `maxY` getter (GeometryEnvelope.ts lines 234-239). -/
def Envelope.maxY (e : Envelope) : Except Err ℚ :=
  match e.maxYOpt with
  | none => .error (.sf "maxY is not defined")
  | some v => .ok v

/-- `GeometryEnvelope.createFromMinMaxXY` (lines 79-91). -/
def Envelope.createFromMinMaxXY (minX minY maxX maxY : ℚ) : Envelope :=
  { minXOpt := some minX, maxXOpt := some maxX,
    minYOpt := some minY, maxYOpt := some maxY }

/-- `getTopLeft` (GeometryEnvelope.ts lines 410-412). -/
def Envelope.getTopLeft (e : Envelope) : Except Err Point := do
  return Point.createFromXY (← e.minX) (← e.maxY)

/-- `getBottomLeft` (GeometryEnvelope.ts lines 420-422). -/
def Envelope.getBottomLeft (e : Envelope) : Except Err Point := do
  return Point.createFromXY (← e.minX) (← e.minY)

/-- `getBottomRight` (GeometryEnvelope.ts lines 430-432). -/
def Envelope.getBottomRight (e : Envelope) : Except Err Point := do
  return Point.createFromXY (← e.maxX) (← e.minY)

/-- `getTopRight` (GeometryEnvelope.ts lines 440-442). -/
def Envelope.getTopRight (e : Envelope) : Except Err Point := do
  return Point.createFromXY (← e.maxX) (← e.maxY)

/-- `getLeft` (GeometryEnvelope.ts lines 450-452). -/
def Envelope.getLeft (e : Envelope) : Except Err LineString := do
  return lineCreateFromTwoPoints (← e.getTopLeft) (← e.getBottomLeft)

/-- `getBottom` (GeometryEnvelope.ts lines 460-465). -/
def Envelope.getBottom (e : Envelope) : Except Err LineString := do
  return lineCreateFromTwoPoints (← e.getBottomLeft) (← e.getBottomRight)

/-- `getRight` (GeometryEnvelope.ts lines 473-475). -/
def Envelope.getRight (e : Envelope) : Except Err LineString := do
  return lineCreateFromTwoPoints (← e.getBottomRight) (← e.getTopRight)

/-- `getTop` (GeometryEnvelope.ts lines 483-485). -/
def Envelope.getTop (e : Envelope) : Except Err LineString := do
  return lineCreateFromTwoPoints (← e.getTopRight) (← e.getTopLeft)

/-- `containsCoordsWithEpsilon` (GeometryEnvelope.ts lines 636-647); the
four getter reads happen left to right with `&&` short-circuiting. -/
def Envelope.containsCoordsWithEpsilon (e : Envelope) (x y epsilon : ℚ) :
    Except Err Bool := do
  if x ≥ (← e.minX) - epsilon then
    if x ≤ (← e.maxX) + epsilon then
      if y ≥ (← e.minY) - epsilon then
        return decide (y ≤ (← e.maxY) + epsilon)
      else
        return false
    else
      return false
  else
    return false

/-- `containsPointWithEpsilon` (GeometryEnvelope.ts lines 611-613). -/
def Envelope.containsPointWithEpsilon (e : Envelope) (point : Point)
    (epsilon : ℚ) : Except Err Bool :=
  e.containsCoordsWithEpsilon point.x point.y epsilon

/-- `GeometryUtils.containsPoint` (FiniteFilterType.ts lines 2876-2884). -/
def containsPoint (envelope : Envelope) (point : Point) : Except Err Bool :=
  envelope.containsPointWithEpsilon point DEFAULT_EQUAL_EPSILON

/-- `GeometryUtils.containsGeometryEnvelope` as invoked inside `cropPoints`
with a `Point` second argument (FiniteFilterType.ts lines 2421 and 2433,
behind `@ts-ignore`): `containsWithEpsilon` reads `this.minX` (which can
throw) and compares it against `point.minX`, which is `undefined` on a
`Point`, so the first `<=` comparison is false and the conjunction
short-circuits to false. -/
def containsGeometryEnvelopeOnPoint (envelope1 : Envelope) (_point : Point) :
    Except Err Bool := do
  let _ ← envelope1.minX
  return false

/-! ### Math primitives

JavaScript `Math` transcendentals, abstracted: every verified property is a
control-flow or exact-value property that holds whatever these return. -/

/-- The transcendental primitives of the JavaScript `Math` object. -/
structure MathPrims where
  sin : ℚ → ℚ
  cos : ℚ → ℚ
  tan : ℚ → ℚ
  atan : ℚ → ℚ
  atan2 : ℚ → ℚ → ℚ
  exp : ℚ → ℚ
  log : ℚ → ℚ
  sqrt : ℚ → ℚ
  pi : ℚ

/-- A concrete all-zero instantiation, used to evaluate the embedding on
concrete inputs whose outcome does not depend on the transcendentals. -/
def trivPrims : MathPrims :=
  ⟨fun _ => 0, fun _ => 0, fun _ => 0, fun _ => 0, fun _ _ => 0,
   fun _ => 0, fun _ => 0, fun _ => 0, 0⟩

/-- Modelled from the spec: `DEGREES_TO_RADIANS = pi/180` (§4.2). -/
def DEGREES_TO_RADIANS (P : MathPrims) : ℚ := P.pi / 180

/-- Modelled from the spec: `RADIANS_TO_DEGREES = 180/pi` (§4.2). -/
def RADIANS_TO_DEGREES (P : MathPrims) : ℚ := 180 / P.pi

/-- `GeometryUtils.degreesToRadians` (FiniteFilterType.ts lines 230-232). -/
def degreesToRadians (P : MathPrims) (degrees : ℚ) : ℚ :=
  degrees * DEGREES_TO_RADIANS P

/-- `GeometryUtils.radiansToDegrees` (FiniteFilterType.ts). -/
def radiansToDegrees (P : MathPrims) (radians : ℚ) : ℚ :=
  radians * RADIANS_TO_DEGREES P

/-- `GeometryUtils.bearing` (FiniteFilterType.ts lines 146-154). -/
def bearingPoints (P : MathPrims) (point1 point2 : Point) : ℚ :=
  let y1 := degreesToRadians P point1.y
  let y2 := degreesToRadians P point2.y
  let xDiff := degreesToRadians P (point2.x - point1.x)
  let y := P.sin xDiff * P.cos y2
  let x := P.cos y1 * P.sin y2 - P.sin y1 * P.cos y2 * P.cos xDiff
  jsMod (radiansToDegrees P (P.atan2 y x) + 360) 360

/-- `GeometryUtils.bearingLine` (FiniteFilterType.ts lines 163-165). -/
def bearingLine (P : MathPrims) (line : LineString) : Except Err ℚ := do
  return bearingPoints P (← line.startPoint) (← line.endPoint)

/-- `GeometryUtils.distance` (FiniteFilterType.ts lines 120-125). -/
def distance (P : MathPrims) (point1 point2 : Point) : ℚ :=
  let diffX := point1.x - point2.x
  let diffY := point1.y - point2.y
  P.sqrt (diffX * diffX + diffY * diffY)

/-- `GeometryUtils.isEqualWithEpsilon` (FiniteFilterType.ts lines
2841-2864). -/
def isEqualWithEpsilon (point1 point2 : Point) (epsilon : ℚ) : Bool :=
  let equal := decide (|point1.x - point2.x| ≤ epsilon) &&
    decide (|point1.y - point2.y| ≤ epsilon) &&
    point1.hasZ == point2.hasZ && point1.hasM == point2.hasM
  let equal :=
    if equal then
      match point1.hasZ, point1.z, point2.z with
      | true, some z1, some z2 => decide (|z1 - z2| ≤ epsilon)
      | _, _, _ => equal
    else equal
  if equal then
    match point1.hasM, point1.m, point2.m with
    | true, some m1, some m2 => decide (|m1 - m2| ≤ epsilon)
    | _, _, _ => equal
  else equal

/-- `GeometryUtils.isEqual` (FiniteFilterType.ts lines 2823-2829). -/
def isEqual (point1 point2 : Point) : Bool :=
  isEqualWithEpsilon point1 point2 DEFAULT_EQUAL_EPSILON

/-- `GeometryUtils.intersection` (FiniteFilterType.ts lines 1466-1491):
Cramer's rule; exactly zero determinant means no intersection. -/
def intersection (line1Point1 line1Point2 line2Point1 line2Point2 : Point) :
    Option Point :=
  let a1 := line1Point2.y - line1Point1.y
  let b1 := line1Point1.x - line1Point2.x
  let c1 := a1 * line1Point1.x + b1 * line1Point1.y
  let a2 := line2Point2.y - line2Point1.y
  let b2 := line2Point1.x - line2Point2.x
  let c2 := a2 * line2Point1.x + b2 * line2Point1.y
  let determinant := a1 * b2 - a2 * b1
  if determinant ≠ 0 then
    some (Point.createFromXY ((b2 * c1 - b1 * c2) / determinant)
      ((a1 * c2 - a2 * c1) / determinant))
  else
    none

/-- `GeometryUtils.intersectionLine` (FiniteFilterType.ts lines
1447-1454). -/
def intersectionLine (line1 line2 : LineString) :
    Except Err (Option Point) := do
  return intersection (← line1.startPoint) (← line1.endPoint)
    (← line2.startPoint) (← line2.endPoint)

/-- `GeometryUtils.pointOnPathWithEpsilon` (FiniteFilterType.ts lines
1381-1401). -/
def pointOnPathWithEpsilon (point point1 point2 : Point) (epsilon : ℚ) :
    Bool :=
  let x21 := point2.x - point1.x
  let y21 := point2.y - point1.y
  let xP1 := point.x - point1.x
  let yP1 := point.y - point1.y
  let dp := xP1 * x21 + yP1 * y21
  if dp ≥ 0 then
    let lengthP1 := xP1 * xP1 + yP1 * yP1
    let length21 := x21 * x21 + y21 * y21
    if lengthP1 ≤ length21 then
      decide (|dp * dp - lengthP1 * length21| ≤ epsilon)
    else false
  else false

/-- `GeometryUtils.pointOnPath` (FiniteFilterType.ts lines 1360-1371). -/
def pointOnPath (point point1 point2 : Point) : Bool :=
  pointOnPathWithEpsilon point point1 point2 DEFAULT_EPSILON

/-- `GeometryUtils.normalizeX` (FiniteFilterType.ts lines 835-843). -/
def normalizeX (x maxX : ℚ) : ℚ :=
  if x < -maxX then x + maxX * 2
  else if x > maxX then x - maxX * 2
  else x

/-! ### Degrees/meters conversion (FiniteFilterType.ts lines 1597-1966) -/

/-- `GeometryUtils.degreesToMetersCoord` (FiniteFilterType.ts lines
1622-1642).  The clamped latitude is computed but never substituted into
the `yValue` formula (the original `y` is used), exactly as in source. -/
def degreesToMetersCoord (P : MathPrims) (x y : ℚ) : Point :=
  let normalizedX := normalizeX x WGS84_HALF_WORLD_LON_WIDTH
  let _newY := max (min y WGS84_HALF_WORLD_LAT_HEIGHT) DEGREES_TO_METERS_MIN_LAT
  let xValue := normalizedX * WEB_MERCATOR_HALF_WORLD_WIDTH /
    WGS84_HALF_WORLD_LON_WIDTH
  let yValue := P.log (P.tan ((WGS84_HALF_WORLD_LAT_HEIGHT + y) * P.pi /
    (2 * WGS84_HALF_WORLD_LON_WIDTH))) / (P.pi / WGS84_HALF_WORLD_LON_WIDTH)
  let yValue := yValue * WEB_MERCATOR_HALF_WORLD_WIDTH /
    WGS84_HALF_WORLD_LON_WIDTH
  Point.createFromXY xValue yValue

/-- `GeometryUtils.degreesToMetersPoint` (FiniteFilterType.ts lines
1604-1612): converts the coordinate, then requires both `z` and `m` to be
present, then copies them through the setters. -/
def degreesToMetersPoint (P : MathPrims) (point : Point) : Except Err Point := do
  let value := degreesToMetersCoord P point.x point.y
  if point.z = none ∨ point.m = none then
    throw (.sf "Point must have Z and M values")
  let value := value.setZ point.z
  let value := value.setM point.m
  return value

/-- `GeometryUtils.metersToDegreesCoord` (FiniteFilterType.ts lines
1952-1966). -/
def metersToDegreesCoord (P : MathPrims) (x y : ℚ) : Point :=
  let xValue := x * WGS84_HALF_WORLD_LON_WIDTH / WEB_MERCATOR_HALF_WORLD_WIDTH
  let yValue := y * WGS84_HALF_WORLD_LON_WIDTH / WEB_MERCATOR_HALF_WORLD_WIDTH
  let yValue := P.atan (P.exp (yValue *
    (P.pi / WGS84_HALF_WORLD_LON_WIDTH))) / P.pi *
    (2 * WGS84_HALF_WORLD_LON_WIDTH) - WGS84_HALF_WORLD_LAT_HEIGHT
  Point.createFromXY xValue yValue

/-- `GeometryUtils.metersToDegreesPoint` (FiniteFilterType.ts lines
1934-1942): same shape as `degreesToMetersPoint`. -/
def metersToDegreesPoint (P : MathPrims) (point : Point) : Except Err Point := do
  let value := metersToDegreesCoord P point.x point.y
  if point.z = none ∨ point.m = none then
    throw (.sf "Point must have Z and M values set")
  let value := value.setZ point.z
  let value := value.setM point.m
  return value

/-- `GeometryUtils.metersToDegreesLine` (FiniteFilterType.ts lines
2005-2011): `Line.create(hasZ, hasM)` then `addPoint` of each converted
point. -/
def metersToDegreesLine (P : MathPrims) (line : LineString) :
    Except Err LineString := do
  line.points.foldlM (fun degrees point => do
    return degrees.addPoint (← metersToDegreesPoint P point))
    (LineString.create line.hasZ line.hasM)

/-! ### Crop (FiniteFilterType.ts lines 2335-2810) -/

/-- `GeometryUtils.cropPoint` (FiniteFilterType.ts lines 2343-2353). -/
def cropPoint (point : Point) (envelope : Envelope) :
    Except Err (Option Point) := do
  if (← containsPoint envelope point) then
    return some point.copy
  else
    return none

/-- The loop state of `cropPoints`: the accumulated `crop` array and the
`previousPoint`/`previousContains` trackers. -/
structure CropState where
  crop : List Point
  previousPoint : Option Point
  previousContains : Bool
deriving DecidableEq, Repr

/-- One iteration of the `for (const point of points)` loop of
`GeometryUtils.cropPoints` (FiniteFilterType.ts lines 2379-2486). -/
def cropPointsStep (P : MathPrims) (envelope : Envelope)
    (left bottom right top : LineString) (st : CropState) (point : Point) :
    Except Err CropState := do
  let contains ← containsPoint envelope point
  let crop ←
    match st.previousPoint with
    | some previousPoint =>
      if !(contains && st.previousContains) then do
        let line := lineCreateFromTwoPoints previousPoint point
        let bearingValue ← bearingLine P (← metersToDegreesLine P line)
        let westBearing := isWestBearing bearingValue
        let eastBearing := isEastBearing bearingValue
        let southBearing := isSouthBearing bearingValue
        let northBearing := isNorthBearing bearingValue
        let vertLine : Option LineString ←
          if decide (point.x > (← envelope.maxX)) && eastBearing then
            pure (some right)
          else if decide (point.x < (← envelope.minX)) && westBearing then
            pure (some left)
          else if eastBearing then pure (some left)
          else if westBearing then pure (some right)
          else pure none
        let horizLine : Option LineString ←
          if decide (point.y > (← envelope.maxY)) && northBearing then
            pure (some top)
          else if decide (point.y < (← envelope.minY)) && southBearing then
            pure (some bottom)
          else if northBearing then pure (some bottom)
          else if southBearing then pure (some top)
          else pure none
        let vertIntersection : Option Point ←
          match vertLine with
          | some vl => do
            match (← intersectionLine line vl) with
            | some vi =>
              if !(← containsGeometryEnvelopeOnPoint envelope vi) then
                pure none
              else pure (some vi)
            | none => pure none
          | none => pure none
        let horizIntersection : Option Point ←
          match horizLine with
          | some hl => do
            match (← intersectionLine line hl) with
            | some hi =>
              if !(← containsGeometryEnvelopeOnPoint envelope hi) then
                pure none
              else pure (some hi)
            | none => pure none
          | none => pure none
        let pair : Option Point × Option Point :=
          match vertIntersection, horizIntersection with
          | some vi, some hi =>
            let vertDistance := distance P previousPoint vi
            let horizDistance := distance P previousPoint hi
            if vertDistance ≤ horizDistance then (some vi, some hi)
            else (some hi, some vi)
          | some vi, none => (some vi, none)
          | none, hi => (hi, none)
        let intersection1 := pair.1
        let intersection2 := pair.2
        match intersection1 with
        | some i1 =>
          if !(isEqual i1 point) && !(isEqual i1 previousPoint) then
            let crop := st.crop ++ [i1]
            match intersection2 with
            | some i2 =>
              if !(contains || st.previousContains) && !(isEqual i2 i1) then
                pure (crop ++ [i2])
              else pure crop
            | none => pure crop
          else pure st.crop
        | none => pure st.crop
      else pure st.crop
    | none => pure st.crop
  let crop := if contains then crop ++ [point] else crop
  return ⟨crop, some point, contains⟩

/-- The ring re-closing and colinear-point simplification of `cropPoints`
(FiniteFilterType.ts lines 2490-2512) — only reachable with
`crop.length > 1`. -/
def cropCloseAndSimplify (points crop : List Point) : List Point :=
  let crop :=
    match points.head?, points.getLast?, crop.head?, crop.getLast? with
    | some pFirst, some pLast, some cFirst, some cLast =>
      if pFirst == pLast && !(cFirst == cLast) then crop ++ [cFirst.copy]
      else crop
    | _, _, _, _ => crop
  if crop.length > 2 then
    match crop.head?, crop.getLast? with
    | some cFirst, some cLast =>
      let middle := (List.range (crop.length - 2)).map (fun k => k + 1)
      let simplified := middle.foldl (fun simplified i =>
        let previous := simplified.getLast?.getD cFirst
        match crop[i]?, crop[i + 1]? with
        | some pt, some next =>
          if !(pointOnPath pt previous next) then simplified ++ [pt]
          else simplified
        | _, _ => simplified) [cFirst]
      simplified ++ [cLast]
    | _, _ => crop
  else crop

/-- `GeometryUtils.cropPoints` (FiniteFilterType.ts lines 2365-2515):
edge lines, the point loop, then the final
`if (crop.length > 0) crop = []; else if (crop.length > 1) ...` block. -/
def cropPoints (P : MathPrims) (points : List Point) (envelope : Envelope) :
    Except Err (List Point) := do
  let left ← envelope.getLeft
  let bottom ← envelope.getBottom
  let right ← envelope.getRight
  let top ← envelope.getTop
  let st ← points.foldlM (cropPointsStep P envelope left bottom right top)
    ⟨[], none, false⟩
  let crop := st.crop
  let crop :=
    if crop.length > 0 then []
    else if crop.length > 1 then cropCloseAndSimplify points crop
    else crop
  return crop

/-! ### Crop wrappers for the concrete geometry kinds -/

/-- A `MultiPoint`-shaped value (src/lib/MultiPoint.ts): a geometry
collection of points. -/
structure MultiPoint where
  hasZ : Bool
  hasM : Bool
  points : List Point
deriving DecidableEq, Repr

/-- `MultiPoint.create` (MultiPoint.ts lines 20-25). -/
def MultiPoint.create (hasZ hasM : Bool) : MultiPoint := ⟨hasZ, hasM, []⟩

/-- `MultiPoint.addPoint` = `GeometryCollection.addGeometry`
(GeometryCollection.ts lines 103-106) with spec-modelled `updateZM`. -/
def MultiPoint.addPoint (mp : MultiPoint) (p : Point) : MultiPoint :=
  ⟨mp.hasZ || p.hasZ, mp.hasM || p.hasM, mp.points ++ [p]⟩

/-- The `points` setter = the `geometries` setter (GeometryCollection.ts
lines 92-97): clears, then adds each. -/
def MultiPoint.setPoints (mp : MultiPoint) (points : List Point) : MultiPoint :=
  points.foldl MultiPoint.addPoint { mp with points := [] }

/-- A `Polygon`-shaped value (rings of line strings). -/
structure Polygon where
  hasZ : Bool
  hasM : Bool
  rings : List LineString
deriving DecidableEq, Repr

/-- `Polygon.create` (LineString.ts / Polygon class lines 276-281). -/
def Polygon.create (hasZ hasM : Bool) : Polygon := ⟨hasZ, hasM, []⟩

/-- `CurvePolygon.addRing` (src/unnamed/part_000 lines 95-98) with
spec-modelled `updateZM`. -/
def Polygon.addRing (pg : Polygon) (ring : LineString) : Polygon :=
  ⟨pg.hasZ || ring.hasZ, pg.hasM || ring.hasM, pg.rings ++ [ring]⟩

/-- The `rings` setter (src/unnamed/part_000 lines 84-89): clears, then
adds each. -/
def Polygon.setRings (pg : Polygon) (rings : List LineString) : Polygon :=
  rings.foldl Polygon.addRing { pg with rings := [] }

/-- A `MultiPolygon`-shaped value (src/unnamed/part_006). -/
structure MultiPolygon where
  hasZ : Bool
  hasM : Bool
  polygons : List Polygon
deriving DecidableEq, Repr

/-- `MultiPolygon.create` (src/unnamed/part_006 lines 26-31). -/
def MultiPolygon.create (hasZ hasM : Bool) : MultiPolygon := ⟨hasZ, hasM, []⟩

/-- `MultiSurface.addSurface` = `GeometryCollection.addGeometry` with
spec-modelled `updateZM`. -/
def MultiPolygon.addPolygon (mp : MultiPolygon) (pg : Polygon) : MultiPolygon :=
  ⟨mp.hasZ || pg.hasZ, mp.hasM || pg.hasM, mp.polygons ++ [pg]⟩

/-- The `polygons` setter = `setSurfaces` = the `geometries` setter:
clears, then adds each. -/
def MultiPolygon.setPolygons (mp : MultiPolygon) (polygons : List Polygon) :
    MultiPolygon :=
  polygons.foldl MultiPolygon.addPolygon { mp with polygons := [] }

/-- A `CompoundCurve`-shaped value (src/lib/CompoundCurve.ts). -/
structure CompoundCurve where
  hasZ : Bool
  hasM : Bool
  lineStrings : List LineString
deriving DecidableEq, Repr

/-- `CompoundCurve.create` (CompoundCurve.ts lines 36-41). -/
def CompoundCurve.create (hasZ hasM : Bool) : CompoundCurve := ⟨hasZ, hasM, []⟩

/-- The `lineStrings` setter (CompoundCurve.ts lines 86-88): direct
assignment, no `updateZM`. -/
def CompoundCurve.setLineStrings (cc : CompoundCurve)
    (lineStrings : List LineString) : CompoundCurve :=
  { cc with lineStrings := lineStrings }

/-- `GeometryUtils.cropLineString` (FiniteFilterType.ts lines 2555-2567):
`cropPoints` always returns an array, and a JavaScript array is truthy
even when empty, so `if (cropPoints)` always takes the then-branch and the
function never returns `undefined` (short of throwing). -/
def cropLineString (P : MathPrims) (lineString : LineString)
    (envelope : Envelope) : Except Err (Option LineString) := do
  let cropPts ← cropPoints P lineString.points envelope
  let crop := some ((LineString.create lineString.hasZ
    lineString.hasM).setPoints cropPts)
  return crop

/-- `GeometryUtils.cropMultiPoint` (FiniteFilterType.ts lines 2525-2543). -/
def cropMultiPoint (multiPoint : MultiPoint) (envelope : Envelope) :
    Except Err (Option MultiPoint) := do
  let cropPts ← multiPoint.points.foldlM (fun acc point => do
    match (← cropPoint point envelope) with
    | some cp => pure (acc ++ [cp])
    | none => pure acc) []
  if cropPts.length > 0 then
    return some ((MultiPoint.create multiPoint.hasZ
      multiPoint.hasM).setPoints cropPts)
  else
    return none

/-- `GeometryUtils.cropPolygon` (FiniteFilterType.ts lines 2633-2657):
each unclosed ring gets `points.push(points[0].copy())` first (in source
this mutates the ring's own array); an empty unclosed ring would make
JavaScript fail reading `points[0].copy` — modelled as an error. -/
def cropPolygon (P : MathPrims) (polygon : Polygon) (envelope : Envelope) :
    Except Err (Option Polygon) := do
  let cropRings ← polygon.rings.foldlM (fun cropRings ring => do
    let points := ring.points
    let points ←
      if !ring.isClosed then
        match points.head? with
        | some p0 => pure (points ++ [p0.copy])
        | none => throw (.sf "TypeError: points[0] is undefined")
      else pure points
    let cropPts ← cropPoints P points envelope
    pure (cropRings ++ [(LineString.create ring.hasZ ring.hasM).setPoints
      cropPts])) []
  if cropRings.length > 0 then
    return some ((Polygon.create polygon.hasZ polygon.hasM).setRings
      cropRings)
  else
    return none

/-- `GeometryUtils.cropMultiPolygon` (FiniteFilterType.ts lines 2669-2691):
unlike its siblings, an absent result is turned into a thrown
"outside the envelope" error. -/
def cropMultiPolygon (P : MathPrims) (multiPolygon : MultiPolygon)
    (envelope : Envelope) : Except Err MultiPolygon := do
  let cropPolygons ← multiPolygon.polygons.foldlM (fun acc polygon => do
    match (← cropPolygon P polygon envelope) with
    | some cp => pure (acc ++ [cp])
    | none => pure acc) []
  let crop : Option MultiPolygon :=
    if cropPolygons.length > 0 then
      some ((MultiPolygon.create multiPolygon.hasZ
        multiPolygon.hasM).setPolygons cropPolygons)
    else none
  match crop with
  | none => throw (.sf "Multi polygon is outside the envelope")
  | some c => return c

/-- `GeometryUtils.cropCompoundCurve` (FiniteFilterType.ts lines
2730-2748). -/
def cropCompoundCurve (P : MathPrims) (compoundCurve : CompoundCurve)
    (envelope : Envelope) : Except Err (Option CompoundCurve) := do
  let cropLineStrings ← compoundCurve.lineStrings.foldlM
    (fun acc lineString => do
      match (← cropLineString P lineString envelope) with
      | some c => pure (acc ++ [c])
      | none => pure acc) []
  if cropLineStrings.length > 0 then
    return some ((CompoundCurve.create compoundCurve.hasZ
      compoundCurve.hasM).setLineStrings cropLineStrings)
  else
    return none

/-! ### CompoundCurve.endPoint (src/lib/CompoundCurve.ts lines 148-163) -/

/-- `CompoundCurve.isEmpty` (CompoundCurve.ts lines 189-191). -/
def CompoundCurve.isEmpty (cc : CompoundCurve) : Bool :=
  cc.lineStrings.isEmpty

/-- `CompoundCurve.endPoint` (CompoundCurve.ts lines 148-163): iterates
`this._lineStrings.reverse()`, which in JavaScript reverses the stored
array IN PLACE and returns that same array; the scan takes the first
non-empty line string of the reversed order and its `endPoint()`; finally
`if (this.isEmpty() || !endPoint) throw`.  Returns the thrown-or-returned
result paired with the mutated object state. -/
def CompoundCurve.endPointWithState (cc : CompoundCurve) :
    Except Err Point × CompoundCurve :=
  let reversed := cc.lineStrings.reverse
  let cc2 : CompoundCurve := { cc with lineStrings := reversed }
  let found := reversed.find? (fun lineString => !lineString.isEmpty)
  let endPt : Option Point := found.bind (fun ls => ls.points.getLast?)
  match endPt with
  | some p =>
    (if cc2.isEmpty then .error (.sf "CompoundCurve is empty") else .ok p,
     cc2)
  | none => (.error (.sf "CompoundCurve is empty"), cc2)

/-- Specification helper for the endPoint claim: the last non-empty
segment of a line-string list, by direct forward recursion (independent of
the implementation's reverse-then-scan). -/
def lastNonEmptySegment : List LineString → Option LineString
  | [] => none
  | ls :: rest =>
    match lastNonEmptySegment rest with
    | some r => some r
    | none => if ls.isEmpty then none else some ls

/-! ### Object-identity model for copy and ring closure

Points are mutable objects shared by reference; the heap maps point ids to
point values, and geometry objects hold ids. -/

namespace Mem

/-- A point object reference: an index into the heap. -/
abbrev PointId := Nat

/-- The heap of allocated point objects. -/
structure Heap where
  pts : List SF.Point
deriving DecidableEq, Repr

/-- Dereference a point id. -/
def Heap.get (h : Heap) (i : PointId) : SF.Point :=
  h.pts.getD i default

/-- Allocate a fresh point object; returns the new heap and the new id. -/
def Heap.alloc (h : Heap) (p : SF.Point) : Heap × PointId :=
  (⟨h.pts ++ [p]⟩, h.pts.length)

/-- The mutation `point.x = v` performed through a reference. -/
def Heap.setX (h : Heap) (i : PointId) (v : ℚ) : Heap :=
  ⟨h.pts.set i ((h.pts.getD i default).setX v)⟩

/-- Geometry objects holding their point children by reference, for the
kinds the copy claims exercise. -/
inductive HGeom where
  | point (i : PointId)
  | lineString (hasZ hasM : Bool) (points : List PointId)
  | geometryCollection (hasZ hasM : Bool) (geometries : List HGeom)
deriving Repr

/-- The `hasZ` flag of a geometry object (a point's flag lives in the
heap value). -/
def HGeom.zFlag (h : Heap) : HGeom → Bool
  | .point i => (h.get i).hasZ
  | .lineString hasZ _ _ => hasZ
  | .geometryCollection hasZ _ _ => hasZ

/-- The `hasM` flag of a geometry object. -/
def HGeom.mFlag (h : Heap) : HGeom → Bool
  | .point i => (h.get i).hasM
  | .lineString _ hasM _ => hasM
  | .geometryCollection _ hasM _ => hasM

/-- `Point.copy` at the object level (Point.ts lines 147-154): allocates
a fresh point object holding the copied value. -/
def copyPointObj (h : Heap) (i : PointId) : Heap × PointId :=
  h.alloc ((h.get i).copy)

/-- `LineString.copy` at the object level (LineString.ts lines 140-149):
a fresh line string built by `addPoint(point.copy())` for every point, so
every child is a freshly allocated id. -/
def copyLineStringObj (h : Heap) (hasZ hasM : Bool)
    (points : List PointId) : Heap × HGeom :=
  let out := points.foldl
    (fun (acc : Heap × (Bool × Bool × List PointId)) i =>
      let (h, st) := acc
      let (h, j) := copyPointObj h i
      (h, (st.1 || (h.get j).hasZ, st.2.1 || (h.get j).hasM,
        st.2.2 ++ [j])))
    (h, (hasZ, hasM, []))
  (out.1, .lineString out.2.1 out.2.2.1 out.2.2.2)

/-- `GeometryCollection.copy` (GeometryCollection.ts lines 362-370):
`create(hasZ, hasM)` followed by `addGeometry(geometry)` for every member
— the ORIGINAL member references, not copies; no point object is
allocated. -/
def copyGeometryCollectionObj (h : Heap) (hasZ hasM : Bool)
    (geometries : List HGeom) : Heap × HGeom :=
  (h, .geometryCollection
    (geometries.foldl (fun z g => z || g.zFlag h) hasZ)
    (geometries.foldl (fun m g => m || g.mFlag h) hasM)
    geometries)

/-- The pure value tree obtained by dereferencing every point. -/
inductive GVal where
  | point (p : SF.Point)
  | lineString (hasZ hasM : Bool) (points : List SF.Point)
  | geometryCollection (hasZ hasM : Bool) (geometries : List GVal)
deriving Repr

mutual

/-- Evaluate a geometry object to its value tree under a heap. -/
def evalHGeom (h : Heap) : HGeom → GVal
  | .point i => .point (h.get i)
  | .lineString hasZ hasM points =>
    .lineString hasZ hasM (points.map (fun i => h.get i))
  | .geometryCollection hasZ hasM gs =>
    .geometryCollection hasZ hasM (evalHGeomList h gs)

/-- Evaluate a list of geometry objects. -/
def evalHGeomList (h : Heap) : List HGeom → List GVal
  | [] => []
  | g :: gs => evalHGeom h g :: evalHGeomList h gs

end

/-- The `LinearRing` `points` setter (src/unnamed/part_009 lines 47-59) at
the object level: `super.points = points` stores the given references; if
the result is non-empty and not closed, `addPoint(points[0])` appends the
FIRST REFERENCE ITSELF (no copy); then the post-closure 4-point minimum
check throws.  `isClosed` is the spec-modelled coincidence test on the
referenced point values. -/
def linearRingSetPoints (h : Heap) (points : List PointId) :
    Except Err (List PointId) :=
  match points with
  | [] => .ok []
  | first :: _ =>
    let closed := (SF.LineString.mk false false
      (points.map (fun i => h.get i))).isClosed
    let pts := if closed then points else points ++ [first]
    if pts.length < 4 then
      .error (.sf "A closed linear ring must have at least four points.")
    else
      .ok pts

end Mem

/-! ### GeometrySerializer.fromJSON
(src/lib/util/serialize/GeometrySerializer.ts lines 357-505) -/

namespace Ser

/-- A parsed tag-discriminated JSON node as `fromJSON` reads it: the
geometry-type tag, the point scalar fields (`_x`,`_y`,`_z`,`_m`), the
flags, and the per-kind child arrays (`_points`, `_rings`, `_geometries`,
`_lineStrings`, `_polygons`). -/
inductive SNode where
  | mk (tag : SF.GeometryType) (x y z m : ℚ) (hasZ hasM : Bool)
      (points rings geometries lineStrings polygons : List SNode)

/-- The tag of a serialized node. -/
def SNode.tag : SNode → SF.GeometryType
  | .mk t _ _ _ _ _ _ _ _ _ _ _ => t

/-- The reconstructed geometry: one constructor per concrete class that
`fromJSON` instantiates.  Children are unchecked (the source casts with
`as`), so every child list is a plain geometry list. -/
inductive Geom where
  | point (p : SF.Point)
  | lineString (hasZ hasM : Bool) (points : List Geom)
  | polygon (hasZ hasM : Bool) (rings : List Geom)
  | multiPoint (hasZ hasM : Bool) (geometries : List Geom)
  | multiLineString (hasZ hasM : Bool) (geometries : List Geom)
  | multiPolygon (hasZ hasM : Bool) (geometries : List Geom)
  | geometryCollection (hasZ hasM : Bool) (geometries : List Geom)
  | circularString (hasZ hasM : Bool) (points : List Geom)
  | compoundCurve (hasZ hasM : Bool) (lineStrings : List Geom)
  | curvePolygon (hasZ hasM : Bool) (rings : List Geom)
  | polyhedralSurface (hasZ hasM : Bool) (polygons : List Geom)
  | tin (hasZ hasM : Bool) (polygons : List Geom)
  | triangle (hasZ hasM : Bool) (rings : List Geom)
deriving Repr

/-- The `Point` case of `fromJSON` (GeometrySerializer.ts lines 361-371):
`create()`, the four setters (the wire `_z`/`_m` are always numbers, so
the setters turn both flags on), then the direct `hasZ`/`hasM` writes
override the flags with the wire values. -/
def pointFromJSON (x y z m : ℚ) (hasZ hasM : Bool) : SF.Point :=
  let point := SF.Point.create false false
  let point := point.setX x
  let point := point.setY y
  let point := point.setZ (some z)
  let point := point.setM (some m)
  { point with hasZ := hasZ, hasM := hasM }

mutual

/-- `GeometrySerializer.fromJSON` (GeometrySerializer.ts lines 357-505).
For the container kinds the source creates the instance, adds the
recursively reconstructed children, then assigns `hasZ`/`hasM` directly
from the node, overwriting whatever the adds propagated; the result is
built here with those final values.  The `default` case throws for the
five tags with no case: `Geometry`, `MultiCurve`, `MultiSurface`, `Curve`,
`Surface`. -/
def fromJSON : SNode → Except Err Geom
  | .mk tag x y z m hasZ hasM points rings geometries lineStrings polygons =>
    match tag with
    | .Point => .ok (.point (pointFromJSON x y z m hasZ hasM))
    | .LineString => do
      return .lineString hasZ hasM (← fromJSONList points)
    | .Polygon => do
      return .polygon hasZ hasM (← fromJSONList rings)
    | .MultiPoint => do
      return .multiPoint hasZ hasM (← fromJSONList geometries)
    | .MultiLineString => do
      return .multiLineString hasZ hasM (← fromJSONList geometries)
    | .MultiPolygon => do
      return .multiPolygon hasZ hasM (← fromJSONList geometries)
    | .GeometryCollection => do
      return .geometryCollection hasZ hasM (← fromJSONList geometries)
    | .CircularString => do
      return .circularString hasZ hasM (← fromJSONList points)
    | .CompoundCurve => do
      return .compoundCurve hasZ hasM (← fromJSONList lineStrings)
    | .CurvePolygon => do
      return .curvePolygon hasZ hasM (← fromJSONList rings)
    | .PolyhedralSurface => do
      return .polyhedralSurface hasZ hasM (← fromJSONList polygons)
    | .Tin => do
      return .tin hasZ hasM (← fromJSONList polygons)
    | .Triangle => do
      return .triangle hasZ hasM (← fromJSONList rings)
    | _ => .error (.sf "Geometry Type not supported")

/-- Reconstruct a list of child nodes in order. -/
def fromJSONList : List SNode → Except Err (List Geom)
  | [] => .ok []
  | n :: ns => do
    return (← fromJSON n) :: (← fromJSONList ns)

end

end Ser

/-! ### GeometryCollection classification
(src/lib/GeometryCollection.ts lines 146-357) -/

namespace Cls

/-- The runtime class of a geometry instance, for `instanceof` tests. -/
inductive GClass where
  | point
  | lineString
  | linearRing
  | line
  | circularString
  | compoundCurve
  | curvePolygon
  | polygon
  | triangle
  | polyhedralSurface
  | tin
  | geometryCollection
  | multiPoint
  | multiLineString
  | multiPolygon
  | extendedGeometryCollection
deriving DecidableEq, Repr

/-- `instanceof Point`. -/
def instOfPoint : GClass → Bool
  | .point => true
  | _ => false

/-- `instanceof LineString` (LinearRing, Line and CircularString extend
LineString). -/
def instOfLineString : GClass → Bool
  | .lineString | .linearRing | .line | .circularString => true
  | _ => false

/-- `instanceof Polygon` (Triangle extends Polygon). -/
def instOfPolygon : GClass → Bool
  | .polygon | .triangle => true
  | _ => false

/-- `instanceof Curve` (LineString family and CompoundCurve). -/
def instOfCurve (c : GClass) : Bool :=
  instOfLineString c || c == .compoundCurve

/-- `instanceof Surface` (CurvePolygon, Polygon, Triangle,
PolyhedralSurface, TIN). -/
def instOfSurface : GClass → Bool
  | .curvePolygon | .polygon | .triangle | .polyhedralSurface | .tin => true
  | _ => false

/-- `instanceof MultiPoint`. -/
def instOfMultiPoint : GClass → Bool
  | .multiPoint => true
  | _ => false

/-- `instanceof MultiLineString`. -/
def instOfMultiLineString : GClass → Bool
  | .multiLineString => true
  | _ => false

/-- `instanceof MultiPolygon`. -/
def instOfMultiPolygon : GClass → Bool
  | .multiPolygon => true
  | _ => false

/-- A geometry collection as the classification methods see it: its own
runtime class, its construction tag, and the runtime classes of its
members. -/
structure GCol where
  cls : GClass
  tag : SF.GeometryType
  members : List GClass
deriving DecidableEq, Repr

/-- `GeometryCollection.isCollectionOfType` (GeometryCollection.ts lines
348-357): true iff every member is an instance of the given class —
vacuously true over zero members. -/
def isCollectionOfType (g : GCol) (instOf : GClass → Bool) : Bool :=
  g.members.all instOf

/-- `GeometryCollection.isMultiPoint` (lines 184-190). -/
def isMultiPoint (g : GCol) : Bool :=
  instOfMultiPoint g.cls || isCollectionOfType g instOfPoint

/-- `GeometryCollection.isMultiLineString` (lines 215-221). -/
def isMultiLineString (g : GCol) : Bool :=
  instOfMultiLineString g.cls || isCollectionOfType g instOfLineString

/-- `GeometryCollection.isMultiPolygon` (lines 245-251). -/
def isMultiPolygon (g : GCol) : Bool :=
  instOfMultiPolygon g.cls || isCollectionOfType g instOfPolygon

/-- `GeometryCollection.isMultiCurve` (lines 276-282); note the source
tests `this instanceof MultiLineString`. -/
def isMultiCurve (g : GCol) : Bool :=
  instOfMultiLineString g.cls || isCollectionOfType g instOfCurve

/-- `GeometryCollection.isMultiSurface` (lines 307-313); the source tests
`this instanceof MultiPolygon`. -/
def isMultiSurface (g : GCol) : Bool :=
  instOfMultiPolygon g.cls || isCollectionOfType g instOfSurface

/-- `GeometryCollection.getCollectionType` (lines 146-177). -/
def getCollectionType (g : GCol) : Except Err SF.GeometryType :=
  match g.tag with
  | .MultiPoint | .MultiLineString | .MultiPolygon => .ok g.tag
  | .GeometryCollection | .MultiCurve | .MultiSurface =>
    .ok (if isMultiPoint g then .MultiPoint
      else if isMultiLineString g then .MultiLineString
      else if isMultiPolygon g then .MultiPolygon
      else if isMultiCurve g then .MultiCurve
      else if isMultiSurface g then .MultiSurface
      else g.tag)
  | _ => .error (.sf "Unexpected Geometry Collection Type")

end Cls

/-! ### Concrete fixtures for the closed evaluations -/

/-- The unit-square envelope `[0,1] x [0,1]`. -/
def env01 : Envelope := Envelope.createFromMinMaxXY 0 0 1 1

/-- A heap holding the three ring points `(0,0)`, `(10,0)`, `(5,10)`. -/
def hRing : Mem.Heap :=
  ⟨[Point.createFromXY 0 0, Point.createFromXY 10 0, Point.createFromXY 5 10]⟩

/-- A heap holding the two points `(0,0)`, `(10,0)`. -/
def hTwo : Mem.Heap :=
  ⟨[Point.createFromXY 0 0, Point.createFromXY 10 0]⟩

/-! ## Helper lemmas -/

/-- Inversion for a successful `Except` bind. -/
theorem except_bind_ok {α β : Type} {x : Except Err α} {f : α → Except Err β}
    {b : β} : x >>= f = .ok b ↔ ∃ a, x = .ok a ∧ f a = .ok b := by
  cases x <;> simp [Bind.bind, Except.bind]

/-- The final block of `cropPoints` always produces the empty list:
a non-empty accumulated `crop` is discarded by the first branch, and the
`else if (crop.length > 1)` post-processing is unreachable because in the
else-branch `crop` is empty. -/
theorem cropFinalEmpty (points crop : List Point) :
    (if crop.length > 0 then ([] : List Point)
     else if crop.length > 1 then cropCloseAndSimplify points crop
     else crop) = [] := by
  cases crop <;> simp

/-- Scanning the reversed list for the first non-empty line string finds
the last non-empty segment of the original order. -/
theorem find_reverse_eq_lastNonEmptySegment (l : List LineString) :
    l.reverse.find? (fun ls => !ls.isEmpty) = lastNonEmptySegment l := by
  induction l with
  | nil => rfl
  | cons a l ih =>
    rw [List.reverse_cons, List.find?_append, ih]
    cases h : lastNonEmptySegment l with
    | some r => simp [lastNonEmptySegment, h, Option.orElse]
    | none =>
      simp only [lastNonEmptySegment, h, Option.orElse, List.find?]
      cases he : a.isEmpty <;> simp [he]

/-! ## Claim theorems -/

/-- C4: for every geometry type tag `X` other than `Geometry`,
`parentType X` is defined and `childTypes (parentType X)` contains `X`;
`parentType Geometry` returns none — the two static lookup tables are
mutually consistent. -/
theorem parentChildTablesConsistent :
    (∀ X : GeometryType, X = .Geometry ∨
      ∃ p, parentType X = some p ∧ X ∈ childTypes p) ∧
    parentType .Geometry = none := by
  decide

/-- C8: at each exact compass value exactly one directional predicate
holds — bearing 0 is North only, 90 East only, 180 South only, 270 West
only, per the exact strict/non-strict comparisons of the source. -/
theorem bearingPredicatesExclusiveAtCompassPoints :
    (isNorthBearing 0 = true ∧ isEastBearing 0 = false ∧
      isSouthBearing 0 = false ∧ isWestBearing 0 = false) ∧
    (isNorthBearing 90 = false ∧ isEastBearing 90 = true ∧
      isSouthBearing 90 = false ∧ isWestBearing 90 = false) ∧
    (isNorthBearing 180 = false ∧ isEastBearing 180 = false ∧
      isSouthBearing 180 = true ∧ isWestBearing 180 = false) ∧
    (isNorthBearing 270 = false ∧ isEastBearing 270 = false ∧
      isSouthBearing 270 = false ∧ isWestBearing 270 = true) := by
  have h0 : jsMod 0 360 = 0 := by
    unfold jsMod; rw [if_pos (by norm_num)]; norm_num
  have h90 : jsMod 90 360 = 90 := by
    unfold jsMod; rw [if_pos (by norm_num)]; norm_num
  have h180 : jsMod 180 360 = 180 := by
    unfold jsMod; rw [if_pos (by norm_num)]; norm_num
  have h270 : jsMod 270 360 = 270 := by
    unfold jsMod; rw [if_pos (by norm_num)]; norm_num
  simp only [isNorthBearing, isEastBearing, isSouthBearing, isWestBearing,
    h0, h90, h180, h270, BEARING_NORTH, BEARING_EAST, BEARING_SOUTH,
    BEARING_WEST, Bool.or_eq_true, Bool.and_eq_true, decide_eq_true_eq,
    Bool.or_eq_false_iff, Bool.and_eq_false_iff, decide_eq_false_iff_not]
  norm_num

/-- C10: an empty `GeometryCollection` built with the GeometryCollection
tag satisfies all five member-type predicates vacuously, and
`getCollectionType()` therefore returns MultiPoint rather than
GeometryCollection. -/
theorem emptyCollectionClassifiesAsMultiPoint :
    Cls.isMultiPoint ⟨.geometryCollection, .GeometryCollection, []⟩ = true ∧
    Cls.isMultiLineString ⟨.geometryCollection, .GeometryCollection, []⟩ = true ∧
    Cls.isMultiPolygon ⟨.geometryCollection, .GeometryCollection, []⟩ = true ∧
    Cls.isMultiCurve ⟨.geometryCollection, .GeometryCollection, []⟩ = true ∧
    Cls.isMultiSurface ⟨.geometryCollection, .GeometryCollection, []⟩ = true ∧
    Cls.getCollectionType ⟨.geometryCollection, .GeometryCollection, []⟩ =
      .ok .MultiPoint := by
  decide

/-- C6: `degreesToMetersPoint` and `metersToDegreesPoint` require the
input point to already carry both Z and M: a point lacking either fails
with a missing-data error, and a point carrying both does not fail and
has Z and M copied through to the converted point. -/
theorem pointConversionRequiresZM (P : MathPrims) (point : Point) :
    ((point.z = none ∨ point.m = none) →
      degreesToMetersPoint P point =
        .error (.sf "Point must have Z and M values") ∧
      metersToDegreesPoint P point =
        .error (.sf "Point must have Z and M values set")) ∧
    (point.z ≠ none → point.m ≠ none →
      (∃ q, degreesToMetersPoint P point = .ok q ∧
        q.z = point.z ∧ q.m = point.m ∧ q.hasZ = true ∧ q.hasM = true) ∧
      (∃ q, metersToDegreesPoint P point = .ok q ∧
        q.z = point.z ∧ q.m = point.m ∧ q.hasZ = true ∧ q.hasM = true)) := by
  constructor
  · intro hmiss
    constructor
    · simp [degreesToMetersPoint, hmiss, throw, throwThe, MonadExceptOf.throw]
    · simp [metersToDegreesPoint, hmiss, throw, throwThe, MonadExceptOf.throw]
  · intro hz hm
    obtain ⟨zv, hzv⟩ := Option.ne_none_iff_exists.mp hz
    obtain ⟨mv, hmv⟩ := Option.ne_none_iff_exists.mp hm
    constructor
    · refine ⟨((degreesToMetersCoord P point.x point.y).setZ point.z).setM
        point.m, ?_, ?_, ?_, ?_, ?_⟩
      · simp only [degreesToMetersPoint, ← hzv, ← hmv]
        rfl
      · simp [Point.setM, Point.setZ]
      · simp [Point.setM]
      · simp [Point.setM, Point.setZ, ← hzv]
      · simp [Point.setM, ← hmv]
    · refine ⟨((metersToDegreesCoord P point.x point.y).setZ point.z).setM
        point.m, ?_, ?_, ?_, ?_, ?_⟩
      · simp only [metersToDegreesPoint, ← hzv, ← hmv]
        rfl
      · simp [Point.setM, Point.setZ]
      · simp [Point.setM]
      · simp [Point.setM, Point.setZ, ← hzv]
      · simp [Point.setM, ← hmv]

/-- C6 witness: the conversion succeeds and copies Z and M through on the
point `(1, 2, z=3, m=4)`, and fails on a point with no Z and M. -/
theorem pointConversionRequiresZM_witness :
    (∃ q, degreesToMetersPoint trivPrims ⟨1, 2, some 3, some 4, true, true⟩ =
      .ok q ∧ q.z = (⟨1, 2, some 3, some 4, true, true⟩ : Point).z ∧
      q.m = (⟨1, 2, some 3, some 4, true, true⟩ : Point).m ∧
      q.hasZ = true ∧ q.hasM = true) ∧
    degreesToMetersPoint trivPrims ⟨1, 2, none, none, false, false⟩ =
      .error (.sf "Point must have Z and M values") := by
  have h1 := pointConversionRequiresZM trivPrims ⟨1, 2, some 3, some 4, true, true⟩
  have h2 := pointConversionRequiresZM trivPrims ⟨1, 2, none, none, false, false⟩
  exact ⟨(h1.2 (by decide) (by decide)).1, (h2.1 (by decide)).1⟩

/-- The point `(10, 0)` is not contained in the unit-square envelope under
the default equality tolerance. -/
theorem containsPoint_env01_pt10 :
    containsPoint env01 (Point.createFromXY 10 0) = .ok false := by
  simp only [containsPoint, Envelope.containsPointWithEpsilon,
    Envelope.containsCoordsWithEpsilon, env01, Envelope.createFromMinMaxXY,
    Envelope.minX, Envelope.maxX, Envelope.minY, Envelope.maxY,
    Point.createFromXY, Point.create, Point.setX, Point.setY,
    DEFAULT_EQUAL_EPSILON, Bind.bind, Except.bind]
  rw [if_pos (by norm_num), if_neg (by norm_num)]
  rfl

/-- Evaluating `cropPoints` on a one-point list: the loop never takes the
intersection path (there is no previous point), so the accumulated list is
`[point]` or `[]` and the final block empties it either way. -/
theorem cropPoints_single (P : MathPrims) (p : Point) (envelope : Envelope)
    (left bottom right top : LineString) (c : Bool)
    (hL : envelope.getLeft = .ok left) (hB : envelope.getBottom = .ok bottom)
    (hR : envelope.getRight = .ok right) (hT : envelope.getTop = .ok top)
    (hc : containsPoint envelope p = .ok c) :
    cropPoints P [p] envelope = .ok [] := by
  simp only [cropPoints, hL, hB, hR, hT, List.foldlM, cropPointsStep, hc,
    Bind.bind, Except.bind, pure, Except.pure]
  cases c <;> simp

/-- C2: whenever `cropPoints` returns normally (rather than throwing), the
result is the empty point array: the `if (crop.length > 0) crop = []`
branch discards any non-empty accumulated result before the ring-closing
and colinear-point-simplification steps can run. -/
theorem cropPointsAlwaysEmpty (P : MathPrims) (points : List Point)
    (envelope : Envelope) (result : List Point)
    (h : cropPoints P points envelope = .ok result) : result = [] := by
  unfold cropPoints at h
  rw [except_bind_ok] at h
  obtain ⟨left, _, h⟩ := h
  rw [except_bind_ok] at h
  obtain ⟨bottom, _, h⟩ := h
  rw [except_bind_ok] at h
  obtain ⟨right, _, h⟩ := h
  rw [except_bind_ok] at h
  obtain ⟨top, _, h⟩ := h
  rw [except_bind_ok] at h
  obtain ⟨st, _, h⟩ := h
  simp only [pure, Except.pure, Except.ok.injEq] at h
  rw [← h]
  exact cropFinalEmpty points st.crop

/-- C2 witness: instantiated on the one-point list `[(10, 0)]` and the
unit-square envelope, where the computation returns `.ok []`. -/
theorem cropPointsAlwaysEmpty_witness : ([] : List Point) = [] :=
  cropPointsAlwaysEmpty trivPrims [Point.createFromXY 10 0] env01 []
    (cropPoints_single trivPrims (Point.createFromXY 10 0) env01 _ _ _ _
      false rfl rfl rfl rfl containsPoint_env01_pt10)

/-- Concrete evaluation shared by the crop-convention results: cropping
the one-point line string `[(10, 0)]` (entirely outside the unit square)
yields a present, empty line string. -/
theorem cropLineString_pt10 :
    cropLineString trivPrims ⟨false, false, [Point.createFromXY 10 0]⟩
      env01 = .ok (some ⟨false, false, []⟩) := by
  have hc := cropPoints_single trivPrims (Point.createFromXY 10 0) env01
    _ _ _ _ false rfl rfl rfl rfl containsPoint_env01_pt10
  simp only [cropLineString, hc, Bind.bind, Except.bind]
  rfl

/-- C5 counterexample: a one-point line string entirely outside the
envelope — nothing survives the crop (the cropped point list is empty),
yet `cropLineString` returns a present (empty) line string, not an absent
result. -/
theorem cropLineStringPresentOnEmptyCrop :
    cropLineString trivPrims ⟨false, false, [Point.createFromXY 10 0]⟩
      env01 = .ok (some ⟨false, false, []⟩) ∧
    cropPoints trivPrims [Point.createFromXY 10 0] env01 = .ok [] :=
  ⟨cropLineString_pt10,
    cropPoints_single trivPrims (Point.createFromXY 10 0) env01
      _ _ _ _ false rfl rfl rfl rfl containsPoint_env01_pt10⟩

/-- C5 amended: `cropMultiPolygon` throws the "outside the envelope" error
when no polygon survives, and `cropMultiPoint`/`cropCompoundCurve` return
an absent result when nothing survives; but `cropLineString` never returns
an absent result — `cropPoints` always returns an array and an empty
JavaScript array is truthy, so the crop line string is always present. -/
theorem cropAbsentConventionAmended :
    (∀ (P : MathPrims) (hasZ hasM : Bool) (envelope : Envelope),
      cropMultiPolygon P ⟨hasZ, hasM, []⟩ envelope =
        .error (.sf "Multi polygon is outside the envelope")) ∧
    (∀ (P : MathPrims) (hasZ hasM : Bool) (envelope : Envelope),
      cropCompoundCurve P ⟨hasZ, hasM, []⟩ envelope = .ok none) ∧
    (∀ (mp : MultiPoint) (envelope : Envelope),
      (∀ p ∈ mp.points, containsPoint envelope p = .ok false) →
      cropMultiPoint mp envelope = .ok none) ∧
    (∀ (P : MathPrims) (ls : LineString) (envelope : Envelope)
      (r : Option LineString),
      cropLineString P ls envelope = .ok r → r.isSome = true) := by
  refine ⟨fun P hasZ hasM envelope => rfl, fun P hasZ hasM envelope => rfl,
    ?_, ?_⟩
  · intro mp envelope hout
    have hfold : ∀ (l : List Point), (∀ p ∈ l, containsPoint envelope p = .ok false) →
        ∀ (acc : List Point),
        (l.foldlM (fun acc point => do
          match (← cropPoint point envelope) with
          | some cp => pure (acc ++ [cp])
          | none => pure acc) acc : Except Err (List Point)) = .ok acc := by
      intro l
      induction l with
      | nil => intro _ acc; rfl
      | cons a l ih =>
        intro hall acc
        have ha : containsPoint envelope a = .ok false :=
          hall a (List.mem_cons_self a l)
        simp only [List.foldlM, cropPoint, ha, Bind.bind, Except.bind]
        exact ih (fun p hp => hall p (List.mem_cons_of_mem a hp)) acc
    unfold cropMultiPoint
    rw [hfold mp.points hout []]
    rfl
  · intro P ls envelope r h
    unfold cropLineString at h
    rw [except_bind_ok] at h
    obtain ⟨cropPts, _, h⟩ := h
    simp only [pure, Except.pure, Except.ok.injEq] at h
    rw [← h]
    rfl

/-- C5 amended witness: the error on an empty multi polygon, the absent
result on a multi point entirely outside the envelope, and the present
result of `cropLineString` on a line string entirely outside. -/
theorem cropAbsentConventionAmended_witness :
    cropMultiPolygon trivPrims ⟨false, false, []⟩ env01 =
      .error (.sf "Multi polygon is outside the envelope") ∧
    cropMultiPoint ⟨false, false, [Point.createFromXY 10 0]⟩ env01 =
      .ok none ∧
    ((some (⟨false, false, []⟩ : LineString)).isSome = true) := by
  have h := cropAbsentConventionAmended
  refine ⟨h.1 trivPrims false false env01, ?_, ?_⟩
  · refine h.2.2.1 ⟨false, false, [Point.createFromXY 10 0]⟩ env01 ?_
    intro p hp
    simp only [List.mem_singleton] at hp
    rw [hp]
    exact containsPoint_env01_pt10
  · exact h.2.2.2 trivPrims ⟨false, false, [Point.createFromXY 10 0]⟩ env01
      (some ⟨false, false, []⟩) cropLineString_pt10

/-- C1 (failing-input evaluation): `GeometryCollection.copy` adds the
original member references instead of copies — the heap is unchanged and
the copy is the same object graph — so mutating the original's point to
`x = 5` changes what the copy reports, while the original and the copy
always report the same values.  By contrast `LineString.copy` allocates a
fresh point (id 1), and mutating the original's point id 0 leaves the copy
unchanged at `(0, 0)`. -/
theorem geometryCollectionCopyAliasesChildren :
    Mem.copyGeometryCollectionObj ⟨[Point.createFromXY 0 0]⟩ false false
      [.point 0] =
      (⟨[Point.createFromXY 0 0]⟩,
        .geometryCollection false false [.point 0]) ∧
    Mem.evalHGeom (Mem.Heap.setX ⟨[Point.createFromXY 0 0]⟩ 0 5)
      (.geometryCollection false false [.point 0]) =
      .geometryCollection false false [.point (Point.createFromXY 5 0)] ∧
    Mem.evalHGeom ⟨[Point.createFromXY 0 0]⟩
      (.geometryCollection false false [.point 0]) =
      .geometryCollection false false [.point (Point.createFromXY 0 0)] ∧
    Mem.copyLineStringObj ⟨[Point.createFromXY 0 0]⟩ false false [0] =
      (⟨[Point.createFromXY 0 0, Point.createFromXY 0 0]⟩,
        .lineString false false [1]) ∧
    Mem.evalHGeom
      (Mem.Heap.setX ⟨[Point.createFromXY 0 0, Point.createFromXY 0 0]⟩ 0 5)
      (.lineString false false [1]) =
      .lineString false false [Point.createFromXY 0 0] := by
  refine ⟨rfl, ?_, ?_, rfl, ?_⟩ <;>
    simp [Mem.evalHGeom, Mem.evalHGeomList, Mem.Heap.setX, Mem.Heap.get,
      Point.createFromXY, Point.create, Point.setX, Point.setY]

/-- C3 counterexample: assigning the three distinct points
`(0,0),(10,0),(5,10)` (heap ids 0, 1, 2) to a `LinearRing` succeeds with
the closing entry being id 0 — the first point object ITSELF, not a copy
(no point is allocated; the heap argument is not even modifiable by the
setter) — so mutating the first point to `x = 99` also changes the value
the ring's closing entry refers to, which an appended copy would leave at
`(0, 0)`. -/
theorem linearRingSetPointsAppendsAlias :
    Mem.linearRingSetPoints hRing [0, 1, 2] = .ok [0, 1, 2, 0] ∧
    hRing.get 0 = Point.createFromXY 0 0 ∧
    (hRing.setX 0 99).get 0 = Point.createFromXY 99 0 := by
  refine ⟨?_, rfl, ?_⟩
  · simp only [Mem.linearRingSetPoints, hRing]
    rfl
  · simp [Mem.Heap.setX, Mem.Heap.get, hRing, Point.createFromXY,
      Point.create, Point.setX, Point.setY]

/-- C3 amended: for a non-empty point list assigned through the
`LinearRing` points setter, if the last point does not coincide with the
first then the first point itself (the same reference, not a copy) is
appended to close the ring; the assignment fails with the
structural-validation error exactly when the ring has fewer than 4 points
after that closure. -/
theorem linearRingSetPointsAmended (h : Mem.Heap) (first : Mem.PointId)
    (rest : List Mem.PointId) :
    (¬ (LineString.mk false false
        ((first :: rest).map fun i => h.get i)).isClosed = true →
      Mem.linearRingSetPoints h (first :: rest) =
        if (first :: rest).length + 1 < 4 then
          .error (.sf "A closed linear ring must have at least four points.")
        else .ok ((first :: rest) ++ [first])) ∧
    ((LineString.mk false false
        ((first :: rest).map fun i => h.get i)).isClosed = true →
      Mem.linearRingSetPoints h (first :: rest) =
        if (first :: rest).length < 4 then
          .error (.sf "A closed linear ring must have at least four points.")
        else .ok (first :: rest)) := by
  constructor
  · intro hnc
    rw [Bool.not_eq_true] at hnc
    simp only [Mem.linearRingSetPoints, hnc, Bool.false_eq_true, if_false,
      List.length_append, List.length_cons, List.length_nil]
  · intro hc
    simp only [Mem.linearRingSetPoints, hc, if_true]

/-- C3 amended witness: three distinct points close to a 4-point ring and
succeed; two distinct points close to a 3-point ring and fail with the
structural-validation error. -/
theorem linearRingSetPointsAmended_witness :
    Mem.linearRingSetPoints hRing [0, 1, 2] = .ok [0, 1, 2, 0] ∧
    Mem.linearRingSetPoints hTwo [0, 1] =
      .error (.sf "A closed linear ring must have at least four points.") := by
  have h1 := (linearRingSetPointsAmended hRing 0 [1, 2]).1 (by decide)
  have h2 := (linearRingSetPointsAmended hTwo 0 [1]).1 (by decide)
  rw [if_neg (by decide)] at h1
  rw [if_pos (by decide)] at h2
  exact ⟨h1, h2⟩

/-- C7: `CompoundCurve.endPoint` reverses the stored line-string sequence
in place (so repeated calls toggle the stored order), and the returned
point is the end point of the last non-empty segment of the pre-call
order. -/
theorem compoundCurveEndPointReversesInPlace (cc : CompoundCurve) :
    cc.endPointWithState.2.lineStrings = cc.lineStrings.reverse ∧
    cc.endPointWithState.2.endPointWithState.2.lineStrings =
      cc.lineStrings ∧
    (∀ ls p, lastNonEmptySegment cc.lineStrings = some ls →
      ls.points.getLast? = some p →
      cc.endPointWithState.1 = .ok p) := by
  have hstate : ∀ c : CompoundCurve,
      c.endPointWithState.2.lineStrings = c.lineStrings.reverse := by
    intro c
    unfold CompoundCurve.endPointWithState
    cases hf : (c.lineStrings.reverse.find? fun ls => !ls.isEmpty).bind
      (fun ls => ls.points.getLast?) <;> simp [hf]
  refine ⟨hstate cc, ?_, ?_⟩
  · rw [hstate, hstate, List.reverse_reverse]
  · intro ls p hls hp
    have hne : cc.lineStrings ≠ [] := by
      intro hnil
      rw [hnil] at hls
      exact Option.noConfusion hls
    have hfind : cc.lineStrings.reverse.find? (fun ls => !ls.isEmpty) =
        some ls := by
      rw [find_reverse_eq_lastNonEmptySegment, hls]
    have hrev : cc.lineStrings.reverse.isEmpty = false := by
      cases hrv : cc.lineStrings.reverse with
      | nil => exact absurd (List.reverse_eq_nil_iff.mp hrv) hne
      | cons a t => rfl
    unfold CompoundCurve.endPointWithState
    simp only [hfind, Option.some_bind, hp, CompoundCurve.isEmpty, hrev,
      Bool.false_eq_true, if_false]

/-- C7 witness: a compound curve whose first segment is empty and whose
second segment ends at `(1, 2)` returns that point. -/
theorem compoundCurveEndPointReversesInPlace_witness :
    (CompoundCurve.mk false false
      [⟨false, false, []⟩, ⟨false, false, [Point.createFromXY 1 2]⟩]
      ).endPointWithState.1 = .ok (Point.createFromXY 1 2) :=
  (compoundCurveEndPointReversesInPlace
    ⟨false, false,
      [⟨false, false, []⟩, ⟨false, false, [Point.createFromXY 1 2]⟩]⟩).2.2
    ⟨false, false, [Point.createFromXY 1 2]⟩ (Point.createFromXY 1 2)
    rfl rfl

/-- C9: a serialized node tagged `GeometryCollection` is always
reconstructed as a plain `GeometryCollection` (never a refined or extended
collection kind), and a node with one of the five unhandled tags
(`Geometry`, `MultiCurve`, `MultiSurface`, `Curve`, `Surface`) fails with
the unsupported-type error. -/
theorem deserializeGeometryCollectionTagPlain :
    (∀ (n : Ser.SNode) (g : Ser.Geom), n.tag = .GeometryCollection →
      Ser.fromJSON n = .ok g →
      ∃ hasZ hasM gs, g = .geometryCollection hasZ hasM gs) ∧
    (∀ n : Ser.SNode,
      (n.tag = .Geometry ∨ n.tag = .MultiCurve ∨ n.tag = .MultiSurface ∨
        n.tag = .Curve ∨ n.tag = .Surface) →
      Ser.fromJSON n = .error (.sf "Geometry Type not supported")) := by
  constructor
  · rintro ⟨tag, x, y, z, m, hz, hm, pts, rings, geos, lss, polys⟩ g
      htag hok
    simp only [Ser.SNode.tag] at htag
    subst htag
    rw [Ser.fromJSON] at hok
    rw [except_bind_ok] at hok
    obtain ⟨gs, _, hok⟩ := hok
    simp only [pure, Except.pure, Except.ok.injEq] at hok
    exact ⟨hz, hm, gs, hok.symm⟩
  · rintro ⟨tag, x, y, z, m, hz, hm, pts, rings, geos, lss, polys⟩ htag
    simp only [Ser.SNode.tag] at htag
    rcases htag with rfl | rfl | rfl | rfl | rfl <;> rw [Ser.fromJSON] <;>
      decide

/-- C9 witness: a concrete GeometryCollection-tagged node deserializes to
the plain geometry collection, and a MultiCurve-tagged node errors. -/
theorem deserializeGeometryCollectionTagPlain_witness :
    (∃ hasZ hasM gs, (Ser.Geom.geometryCollection false false [] : Ser.Geom) =
      .geometryCollection hasZ hasM gs) ∧
    Ser.fromJSON (.mk .MultiCurve 0 0 0 0 false false [] [] [] [] []) =
      .error (.sf "Geometry Type not supported") := by
  have h := deserializeGeometryCollectionTagPlain
  exact ⟨h.1 (.mk .GeometryCollection 0 0 0 0 false false [] [] [] [] [])
      (.geometryCollection false false []) rfl (by rw [Ser.fromJSON]; rfl),
    h.2 (.mk .MultiCurve 0 0 0 0 false false [] [] [] [] [])
      (Or.inr (Or.inl rfl))⟩

end SF
